import Mathlib

set_option autoImplicit false

/-!
Shallow embedding of the OAuth flow core of the swiggymcp Telegram bot:
session storage, OAuth provider, flow coordinator (TokenManager),
callback HTTP server, MCP client manager and tool invoker.

Maps are embedded as functions to Option; Date.now() and other
nondeterministic or external inputs (random UUIDs, network connect and
token-exchange outcomes) are passed as explicit parameters.
-/

/-- The three Swiggy services (src/types/mcp.types.ts). -/
inductive SwiggyService where
  | food
  | instamart
  | dineout
deriving DecidableEq, Repr

/-- String id of a service, as used in composite map keys. -/
def SwiggyService.id : SwiggyService → String
  | .food => "food"
  | .instamart => "instamart"
  | .dineout => "dineout"

/-- OAuth token material (external SDK type, modelled by its carrier). -/
structure OAuthTokens where
  access_token : String
  refresh_token : Option String
deriving DecidableEq, Repr

/-- Dynamically registered client identity (external SDK type). -/
structure OAuthClientRec where
  client_id : String
deriving DecidableEq, Repr

/-- Per-service OAuth state of a user (src/types/telegram.types.ts:
`UserOAuthState` with optional tokens, codeVerifier, authenticatedAt). -/
structure UserOAuthState where
  tokens : Option OAuthTokens
  codeVerifier : Option String
  authenticatedAt : Option Nat
deriving DecidableEq, Repr

/-- A user session (src/types/telegram.types.ts `UserSession`). -/
structure UserSession where
  telegramUserId : Nat
  telegramChatId : Nat
  username : Option String
  oauthState : SwiggyService → Option UserOAuthState
  isAuthenticating : Bool
  pendingAuthService : Option SwiggyService
  pendingAuthUrl : Option String
  createdAt : Nat
  lastActiveAt : Nat

/-- A pending OAuth flow record, keyed by its state token
(src/types/user.types.ts `PendingOAuthFlow`). -/
structure PendingOAuthFlow where
  telegramUserId : Nat
  chatId : Nat
  service : SwiggyService
  codeVerifier : String
  state : String
  createdAt : Nat
  expiresAt : Nat

/-- The in-memory SessionStore (src/memory/sessionStore.ts): three maps,
embedded as functions to Option. -/
structure SessionStore where
  sessions : Nat → Option UserSession
  pendingFlows : String → Option PendingOAuthFlow
  clientInfos : String → Option OAuthClientRec

/-- The store at process start: all maps empty. -/
def SessionStore.empty : SessionStore :=
  { sessions := fun _ => none
    pendingFlows := fun _ => none
    clientInfos := fun _ => none }

/-- Composite `userId:service` key used by the clientInfos map. -/
def clientInfoKey (userId : Nat) (service : SwiggyService) : String :=
  toString userId ++ ":" ++ service.id

/-- SessionStore.getOrCreateSession: create the session if missing, then
touch lastActiveAt and return it (sessionStore.ts lines 11-26).
Date.now() is the `now` parameter. -/
def SessionStore.getOrCreateSession (st : SessionStore) (userId chatId : Nat)
    (username : Option String) (now : Nat) : SessionStore × UserSession :=
  let base :=
    match st.sessions userId with
    | some s => s
    | none =>
        { telegramUserId := userId
          telegramChatId := chatId
          username := username
          oauthState := fun _ => none
          isAuthenticating := false
          pendingAuthService := none
          pendingAuthUrl := none
          createdAt := now
          lastActiveAt := now }
  let s := { base with lastActiveAt := now }
  ({ st with sessions := fun u => if u = userId then some s else st.sessions u }, s)

/-- SessionStore.getSession (sessionStore.ts lines 28-30). -/
def SessionStore.getSession (st : SessionStore) (userId : Nat) : Option UserSession :=
  st.sessions userId

/-- SessionStore.saveTokens (sessionStore.ts lines 33-42): no-op when the
session is missing; otherwise writes tokens and authenticatedAt into the
per-service record and clears the authenticating markers. -/
def SessionStore.saveTokens (st : SessionStore) (userId : Nat)
    (service : SwiggyService) (tokens : OAuthTokens) (now : Nat) : SessionStore :=
  match st.sessions userId with
  | none => st
  | some s =>
      let cr0 :=
        match s.oauthState service with
        | some cr => cr
        | none => { tokens := none, codeVerifier := none, authenticatedAt := none }
      let cr1 := { cr0 with tokens := some tokens, authenticatedAt := some now }
      let s1 := { s with
        oauthState := fun sv => if sv = service then some cr1 else s.oauthState sv
        isAuthenticating := false
        pendingAuthService := none
        pendingAuthUrl := none }
      { st with sessions := fun u => if u = userId then some s1 else st.sessions u }

/-- SessionStore.getTokens (sessionStore.ts lines 44-46). -/
def SessionStore.getTokens (st : SessionStore) (userId : Nat)
    (service : SwiggyService) : Option OAuthTokens :=
  match st.sessions userId with
  | none => none
  | some s =>
      match s.oauthState service with
      | none => none
      | some cr => cr.tokens

/-- SessionStore.clearTokens (sessionStore.ts lines 48-52): deletes the
whole per-service record when present, no-op otherwise. -/
def SessionStore.clearTokens (st : SessionStore) (userId : Nat)
    (service : SwiggyService) : SessionStore :=
  match st.sessions userId with
  | none => st
  | some s =>
      match s.oauthState service with
      | none => st
      | some _ =>
          let s1 := { s with
            oauthState := fun sv => if sv = service then none else s.oauthState sv }
          { st with sessions := fun u => if u = userId then some s1 else st.sessions u }

/-- SessionStore.saveCodeVerifier (sessionStore.ts lines 55-60): no-op when
the session is missing. -/
def SessionStore.saveCodeVerifier (st : SessionStore) (userId : Nat)
    (service : SwiggyService) (verifier : String) : SessionStore :=
  match st.sessions userId with
  | none => st
  | some s =>
      let cr0 :=
        match s.oauthState service with
        | some cr => cr
        | none => { tokens := none, codeVerifier := none, authenticatedAt := none }
      let cr1 := { cr0 with codeVerifier := some verifier }
      let s1 := { s with
        oauthState := fun sv => if sv = service then some cr1 else s.oauthState sv }
      { st with sessions := fun u => if u = userId then some s1 else st.sessions u }

/-- SessionStore.getCodeVerifier (sessionStore.ts lines 62-64): empty
string when absent. -/
def SessionStore.getCodeVerifier (st : SessionStore) (userId : Nat)
    (service : SwiggyService) : String :=
  match st.sessions userId with
  | none => ""
  | some s =>
      match s.oauthState service with
      | none => ""
      | some cr => cr.codeVerifier.getD ""

/-- SessionStore.saveClientInfo (sessionStore.ts lines 67-69). -/
def SessionStore.saveClientInfo (st : SessionStore) (userId : Nat)
    (service : SwiggyService) (info : OAuthClientRec) : SessionStore :=
  { st with clientInfos := fun k =>
      if k = clientInfoKey userId service then some info else st.clientInfos k }

/-- SessionStore.getClientInfo (sessionStore.ts lines 71-73). -/
def SessionStore.getClientInfo (st : SessionStore) (userId : Nat)
    (service : SwiggyService) : Option OAuthClientRec :=
  st.clientInfos (clientInfoKey userId service)

/-- SessionStore.setPendingAuthUrl (sessionStore.ts lines 76-82): no-op
when the session is missing; otherwise records the URL and service and
sets the authenticating flag. -/
def SessionStore.setPendingAuthUrl (st : SessionStore) (userId : Nat)
    (service : SwiggyService) (url : String) : SessionStore :=
  match st.sessions userId with
  | none => st
  | some s =>
      let s1 := { s with
        pendingAuthUrl := some url
        pendingAuthService := some service
        isAuthenticating := true }
      { st with sessions := fun u => if u = userId then some s1 else st.sessions u }

/-- SessionStore.getPendingAuthUrl (sessionStore.ts lines 84-88). -/
def SessionStore.getPendingAuthUrl (st : SessionStore) (userId : Nat) :
    Option (String × SwiggyService) :=
  match st.sessions userId with
  | none => none
  | some s =>
      match s.pendingAuthUrl, s.pendingAuthService with
      | some url, some sv => some (url, sv)
      | _, _ => none

/-- SessionStore.clearPendingAuth (sessionStore.ts lines 90-96). -/
def SessionStore.clearPendingAuth (st : SessionStore) (userId : Nat) : SessionStore :=
  match st.sessions userId with
  | none => st
  | some s =>
      let s1 := { s with
        isAuthenticating := false
        pendingAuthService := none
        pendingAuthUrl := none }
      { st with sessions := fun u => if u = userId then some s1 else st.sessions u }

/-- SessionStore.registerPendingFlow (sessionStore.ts lines 99-101). -/
def SessionStore.registerPendingFlow (st : SessionStore) (state : String)
    (flow : PendingOAuthFlow) : SessionStore :=
  { st with pendingFlows := fun k =>
      if k = state then some flow else st.pendingFlows k }

/-- SessionStore.getPendingFlow (sessionStore.ts lines 103-105). -/
def SessionStore.getPendingFlow (st : SessionStore) (state : String) :
    Option PendingOAuthFlow :=
  st.pendingFlows state

/-- SessionStore.removePendingFlow (sessionStore.ts lines 107-109). -/
def SessionStore.removePendingFlow (st : SessionStore) (state : String) : SessionStore :=
  { st with pendingFlows := fun k =>
      if k = state then none else st.pendingFlows k }

/-- SessionStore.isAuthenticated (sessionStore.ts lines 112-114): tokens
present for that user and service. -/
def SessionStore.isAuthenticated (st : SessionStore) (userId : Nat)
    (service : SwiggyService) : Bool :=
  match st.sessions userId with
  | none => false
  | some s =>
      match s.oauthState service with
      | none => false
      | some cr => cr.tokens.isSome

/-! ## SwiggyOAuthProvider (src/mcp/oauthProvider.ts) -/

/-- Per-user, per-service OAuth provider. The constructor signature is
(userId, service, sessionStore, callbackPort, callbackHost, oauthState?);
the store is passed at each call here, so the record keeps the pure
configuration fields. -/
structure SwiggyOAuthProvider where
  userId : Nat
  service : SwiggyService
  callbackPort : Nat
  callbackHost : String
  oauthState : Option String

/-- SwiggyOAuthProvider.state (oauthProvider.ts lines 160-162): the
externally supplied oauthState when present, otherwise a fresh random
UUID. Nondeterministic crypto.randomUUID() is the `freshToken` input. -/
def SwiggyOAuthProvider.state (p : SwiggyOAuthProvider) (freshToken : String) : String :=
  p.oauthState.getD freshToken

/-- SwiggyOAuthProvider.redirectToAuthorization (oauthProvider.ts lines
147-158): records the authorization URL in the store. -/
def SwiggyOAuthProvider.redirectToAuthorization (p : SwiggyOAuthProvider)
    (st : SessionStore) (authorizationUrl : String) : SessionStore :=
  st.setPendingAuthUrl p.userId p.service authorizationUrl

/-! ## TokenManager, explicit-exchange variant (src/auth/tokenManager.ts)

The repository holds two TokenManager variants; the one constructed by
index.ts (six constructor arguments: store, server, handler, endpoints,
port, host) performs an explicit code-for-token exchange via the MCP SDK
auth() helper, and is embedded here. -/

/-- Event published by the callback server. -/
structure AuthCallbackEvent where
  code : String
  state : String
deriving DecidableEq, Repr

/-- Event handed to the onAuthComplete handler (tokenManager.ts). -/
structure AuthCompleteEvent where
  userId : Nat
  chatId : Nat
  service : SwiggyService
  success : Bool
  error : Option String
deriving DecidableEq, Repr

/-- Outcome of the external auth() SDK call: the string result AUTHORIZED,
some other result value, or a thrown error. -/
inductive ExchangeResult where
  | authorized
  | unexpected (result : String)
  | thrown (err : String)
deriving DecidableEq, Repr

/-- Observable actions of the flow coordinator, in execution order. -/
inductive CoordinatorAction where
  | logUnknownState (state : String)
  | removeFlow (state : String)
  | exchangeCode (userId : Nat) (service : SwiggyService) (code : String)
  | notify (e : AuthCompleteEvent)
deriving DecidableEq, Repr

/-- The failure message delivered when the exchange does not authorize
(tokenManager.ts lines 192 and 207). -/
def exchangeFailedMsg : String := "Token exchange failed. Please try /login again."

/-- The failure message delivered for an expired flow (tokenManager.ts
line 145). -/
def flowExpiredMsg : String := "Authentication flow expired. Please try /login again."

/-- The notification produced after the code-for-token exchange: success
exactly when auth() returned AUTHORIZED, otherwise a failure with the
retry message (tokenManager.ts lines 168-209). -/
def exchangeNotification (flow : PendingOAuthFlow) (ex : ExchangeResult) :
    AuthCompleteEvent :=
  match ex with
  | .authorized =>
      { userId := flow.telegramUserId, chatId := flow.chatId
        service := flow.service, success := true, error := none }
  | _ =>
      { userId := flow.telegramUserId, chatId := flow.chatId
        service := flow.service, success := false, error := some exchangeFailedMsg }

/-- TokenManager.handleCallback (tokenManager.ts lines 128-210), the
explicit-exchange variant: look up the pending flow by state; unknown
states are logged and dropped; expired flows are removed and notified as
failures; otherwise the record is consumed, the code is exchanged via a
SwiggyOAuthProvider and auth(), and exactly one notification is
delivered. Date.now() is `now`; the external exchange outcome is `ex`.
Returns the store after the direct coordinator writes together with the
ordered action trace. -/
def TokenManager.handleCallback (st : SessionStore) (event : AuthCallbackEvent)
    (now : Nat) (ex : ExchangeResult) : SessionStore × List CoordinatorAction :=
  match st.getPendingFlow event.state with
  | none => (st, [CoordinatorAction.logUnknownState event.state])
  | some flow =>
      if now > flow.expiresAt then
        (st.removePendingFlow event.state,
         [CoordinatorAction.removeFlow event.state,
          CoordinatorAction.notify
            { userId := flow.telegramUserId, chatId := flow.chatId
              service := flow.service, success := false
              error := some flowExpiredMsg }])
      else
        (st.removePendingFlow event.state,
         [CoordinatorAction.removeFlow event.state,
          CoordinatorAction.exchangeCode flow.telegramUserId flow.service event.code,
          CoordinatorAction.notify (exchangeNotification flow ex)])

/-! ## OAuthCallbackServer (src/auth/oauthCallbackServer.ts) -/

/-- An HTTP response as written by the callback server. -/
structure HttpResponse where
  statusCode : Nat
  contentType : String
  body : String
deriving DecidableEq, Repr

/-- Marker body of the static confirmation page (oauthCallbackServer.ts
lines 94-102). -/
def successHtml : String := "Authentication Successful! You can close this tab and return to Telegram."

/-- Marker body of the fragment-to-query client-side redirect page served
when code or state is missing (oauthCallbackServer.ts lines 62-87). -/
def fragmentRedirectHtml : String := "Completing authentication... fragment-to-query redirect script"

/-- Truthiness of an optional query parameter: absent and empty strings
are falsy in the guard !code || !state. -/
def paramTruthy : Option String → Bool
  | none => false
  | some s => !s.isEmpty

/-- OAuthCallbackServer.handleCallback (oauthCallbackServer.ts lines
54-103): with both parameters truthy, publish exactly one (code, state)
event and serve the confirmation page; otherwise publish nothing and
serve the fragment-to-query redirect page. -/
def OAuthCallbackServer.handleCallback (code state : Option String) :
    HttpResponse × List AuthCallbackEvent :=
  if !paramTruthy code || !paramTruthy state then
    ({ statusCode := 200, contentType := "text/html", body := fragmentRedirectHtml }, [])
  else
    ({ statusCode := 200, contentType := "text/html", body := successHtml },
     [{ code := code.getD "", state := state.getD "" }])

/-- OAuthCallbackServer.handleRequest (oauthCallbackServer.ts lines
36-52): route on the path; the pending-flow registry is never consulted
(the function does not take the store at all). -/
def OAuthCallbackServer.handleRequest (path : String) (code state : Option String) :
    HttpResponse × List AuthCallbackEvent :=
  if path = "/health" then
    ({ statusCode := 200, contentType := "text/plain", body := "OK" }, [])
  else if path = "/callback" then
    OAuthCallbackServer.handleCallback code state
  else
    ({ statusCode := 404, contentType := "text/plain", body := "Not found" }, [])

/-! ## McpClientManager (src/mcp/mcpClientManager.ts) -/

/-- Identity of a live MCP Client connection object. -/
abbrev McpClient := Nat

/-- Identity of a live transport object. -/
abbrev McpTransport := Nat

/-- The client manager cache: clients and transports maps keyed by the
composite `userId:service` string. -/
structure McpClientManager where
  clients : String → Option McpClient
  transports : String → Option McpTransport

/-- A manager with empty caches. -/
def McpClientManager.emptyMgr : McpClientManager :=
  { clients := fun _ => none, transports := fun _ => none }

/-- McpClientManager.getKey (mcpClientManager.ts lines 29-31). -/
def McpClientManager.getKey (userId : Nat) (service : SwiggyService) : String :=
  toString userId ++ ":" ++ service.id

/-- Outcome of the external client.connect(transport) call. The connect
may write to the store through the OAuth provider, so the outcome
carries the store as it stands after the attempt. -/
inductive ConnectOutcome where
  | ok (stAfter : SessionStore)
  | fail (err : String) (stAfter : SessionStore)

/-- Errors surfaced by getClient. -/
inductive GetClientError where
  | authRequired (userId : Nat) (service : SwiggyService)
  | connectFailed (err : String)
deriving DecidableEq, Repr

/-- Observable manager actions. -/
inductive MgrAction where
  | connectAttempt (userId : Nat) (service : SwiggyService)
deriving DecidableEq, Repr

/-- McpClientManager.getClient (mcpClientManager.ts lines 38-87): return
the cached client when present; otherwise fail with
AuthenticationRequired when the user holds no tokens, without
connecting; otherwise attempt a connection, reclassifying a failure as
AuthenticationRequired when a pending auth URL was recorded, and on
success cache the fresh client and transport under the key. Returns the
result, the manager, the store and the ordered action trace. -/
def McpClientManager.getClient (mgr : McpClientManager) (st : SessionStore)
    (userId : Nat) (service : SwiggyService) (connect : ConnectOutcome)
    (freshClient : McpClient) (freshTransport : McpTransport) :
    Except GetClientError McpClient × McpClientManager × SessionStore × List MgrAction :=
  let key := McpClientManager.getKey userId service
  match mgr.clients key with
  | some existing => (Except.ok existing, mgr, st, [])
  | none =>
      if st.isAuthenticated userId service then
        match connect with
        | .ok stAfter =>
            (Except.ok freshClient,
             { clients := fun k => if k = key then some freshClient else mgr.clients k
               transports := fun k => if k = key then some freshTransport else mgr.transports k },
             stAfter,
             [MgrAction.connectAttempt userId service])
        | .fail err stAfter =>
            if (stAfter.getPendingAuthUrl userId).isSome then
              (Except.error (GetClientError.authRequired userId service), mgr, stAfter,
               [MgrAction.connectAttempt userId service])
            else
              (Except.error (GetClientError.connectFailed err), mgr, stAfter,
               [MgrAction.connectAttempt userId service])
      else
        (Except.error (GetClientError.authRequired userId service), mgr, st, [])

/-- The provider constructed by McpClientManager.initiateAuth
(mcpClientManager.ts lines 95-101): five constructor arguments, so the
oauthState field of the provider is left unset. The method signature is
initiateAuth(userId, service) with no state parameter. -/
def McpClientManager.initiateAuthProvider (userId : Nat) (service : SwiggyService)
    (callbackPort : Nat) (callbackHost : String) : SwiggyOAuthProvider :=
  { userId := userId, service := service, callbackPort := callbackPort
    callbackHost := callbackHost, oauthState := none }

/-- McpClientManager.initiateAuth (mcpClientManager.ts lines 94-129):
attempt a connection expecting it to fail after the provider records a
redirect URL; return the recorded URL, or none if no URL was recorded
(on unexpected success the client is cached and none is returned). -/
def McpClientManager.initiateAuth (mgr : McpClientManager) (st : SessionStore)
    (userId : Nat) (service : SwiggyService) (connect : ConnectOutcome)
    (freshClient : McpClient) (freshTransport : McpTransport) :
    Option String × McpClientManager × SessionStore :=
  let key := McpClientManager.getKey userId service
  match connect with
  | .ok stAfter =>
      (none,
       { clients := fun k => if k = key then some freshClient else mgr.clients k
         transports := fun k => if k = key then some freshTransport else mgr.transports k },
       stAfter)
  | .fail _ stAfter =>
      match stAfter.getPendingAuthUrl userId with
      | some (url, _) => (some url, mgr, stAfter)
      | none => (none, mgr, stAfter)

/-- McpClientManager.invalidateClient (mcpClientManager.ts lines
160-164): evict without closing. -/
def McpClientManager.invalidateClient (mgr : McpClientManager) (userId : Nat)
    (service : SwiggyService) : McpClientManager :=
  let key := McpClientManager.getKey userId service
  { clients := fun k => if k = key then none else mgr.clients k
    transports := fun k => if k = key then none else mgr.transports k }

/-! ## ToolInvoker (src/mcp/toolInvoker.ts) -/

/-- One content block of a tool call result. -/
structure ContentBlock where
  type : String
  text : Option String
  data : Option String
  mimeType : Option String
deriving DecidableEq, Repr

/-- Result of a tool call (src/types/mcp.types.ts ToolCallResult). -/
structure ToolCallResult where
  service : SwiggyService
  toolName : String
  content : List ContentBlock
  isError : Bool
deriving DecidableEq, Repr

/-- The SwiggyMcpError thrown by ToolInvoker.invoke. -/
structure SwiggyMcpError where
  message : String
  service : SwiggyService
  toolName : String
  isRetryable : Bool
deriving DecidableEq, Repr

/-- Outcome of the external client.callTool call. -/
inductive CallOutcome where
  | success (content : List ContentBlock) (isErrorFlag : Bool)
  | thrown (msg : String)
deriving DecidableEq, Repr

/-- Prefix test on character lists. -/
def charsPrefixOf : List Char → List Char → Bool
  | [], _ => true
  | _ :: _, [] => false
  | p :: ps, c :: cs => p == c && charsPrefixOf ps cs

/-- Substring search on character lists. -/
def charsSub : List Char → List Char → Bool
  | [], pat => pat.isEmpty
  | l@(_ :: cs), pat => charsPrefixOf pat l || charsSub cs pat

/-- Substring test, the message.includes classification used by
ToolInvoker. -/
def strContains (s pat : String) : Bool :=
  charsSub s.data pat.data

/-- Transient-error classification (toolInvoker.ts lines 41-43): the
message mentions timeout, ECONNRESET or 503. -/
def isRetryableMessage (msg : String) : Bool :=
  strContains msg "timeout" || strContains msg "ECONNRESET" || strContains msg "503"

/-- ToolInvoker.invoke (toolInvoker.ts lines 10-47): wrap a successful
call into a ToolCallResult; wrap a thrown error into a SwiggyMcpError
carrying its transient classification. -/
def ToolInvoker.invoke (service : SwiggyService) (toolName : String)
    (outcome : CallOutcome) : Except SwiggyMcpError ToolCallResult :=
  match outcome with
  | .success content isErrorFlag =>
      Except.ok { service := service, toolName := toolName
                  content := content, isError := isErrorFlag }
  | .thrown msg =>
      Except.error { message := msg, service := service, toolName := toolName
                     isRetryable := isRetryableMessage msg }

/-- ToolInvoker.invokeWithRetry (toolInvoker.ts lines 52-68): one
automatic retry exactly when the first attempt threw a retryable
SwiggyMcpError; otherwise the first outcome is final. The second
component counts the invoke attempts performed. -/
def ToolInvoker.invokeWithRetry (service : SwiggyService) (toolName : String)
    (first second : CallOutcome) :
    Except SwiggyMcpError ToolCallResult × Nat :=
  match ToolInvoker.invoke service toolName first with
  | .ok r => (Except.ok r, 1)
  | .error e =>
      if e.isRetryable then
        (ToolInvoker.invoke service toolName second, 2)
      else
        (Except.error e, 1)

/-! ## Concrete fixtures used by witnesses -/

/-- A concrete token record. -/
def tokA : OAuthTokens := { access_token := "tokA", refresh_token := none }

/-- A concrete pending flow registered under state s1, expiring at 100. -/
def flowA : PendingOAuthFlow :=
  { telegramUserId := 7, chatId := 70, service := SwiggyService.food
    codeVerifier := "", state := "s1", createdAt := 0, expiresAt := 100 }

/-- The empty store with flowA registered. -/
def storeWithFlowA : SessionStore :=
  SessionStore.empty.registerPendingFlow "s1" flowA

/-- A store holding a session for user 1 (chat 10). -/
def storeWithSession1 : SessionStore :=
  (SessionStore.empty.getOrCreateSession 1 10 none 0).1

/-- storeWithSession1 after user 1 authenticated the food service. -/
def storeAuth1 : SessionStore :=
  storeWithSession1.saveTokens 1 SwiggyService.food tokA 5

/-- A manager whose cache holds client 5 for user 1 and food. -/
def mgrWithClient5 : McpClientManager :=
  { clients := fun k => if k = "1:food" then some (5 : McpClient) else none
    transports := fun _ => none }

/-- The manager cache left behind by a successful first getClient for
user 1 and food on the empty manager (fresh client 9, transport 91). -/
def mgrAfterConnect : McpClientManager :=
  (McpClientManager.getClient McpClientManager.emptyMgr storeAuth1 1 SwiggyService.food
    (ConnectOutcome.ok storeAuth1) 9 91).2.1

/-! ## Claims about the flow coordinator -/

/-- C4: a callback whose state matches no pending flow is only logged and
dropped: no notification of any kind is delivered and the store is
returned completely unchanged. -/
theorem handleCallback_unknown_state_droplog
    (st : SessionStore) (ev : AuthCallbackEvent) (now : Nat) (ex : ExchangeResult)
    (hf : st.getPendingFlow ev.state = none) :
    TokenManager.handleCallback st ev now ex =
      (st, [CoordinatorAction.logUnknownState ev.state]) := by
  unfold TokenManager.handleCallback
  rw [hf]

theorem handleCallback_unknown_state_droplog_witness :
    TokenManager.handleCallback SessionStore.empty
        { code := "c0", state := "unknown-xyz" } 0 ExchangeResult.authorized =
      (SessionStore.empty, [CoordinatorAction.logUnknownState "unknown-xyz"]) :=
  handleCallback_unknown_state_droplog SessionStore.empty
    { code := "c0", state := "unknown-xyz" } 0 ExchangeResult.authorized rfl

/-- C3: a callback whose state matches a pending flow past its expiry
removes the record and delivers exactly one failure notification naming
the expired flow; no exchange action occurs and no success notification
is delivered. -/
theorem handleCallback_expired_flow
    (st : SessionStore) (ev : AuthCallbackEvent) (now : Nat) (ex : ExchangeResult)
    (flow : PendingOAuthFlow)
    (hf : st.getPendingFlow ev.state = some flow)
    (hexp : now > flow.expiresAt) :
    TokenManager.handleCallback st ev now ex =
      (st.removePendingFlow ev.state,
       [CoordinatorAction.removeFlow ev.state,
        CoordinatorAction.notify
          { userId := flow.telegramUserId, chatId := flow.chatId
            service := flow.service, success := false
            error := some flowExpiredMsg }]) ∧
    (TokenManager.handleCallback st ev now ex).1.getPendingFlow ev.state = none := by
  have h1 : TokenManager.handleCallback st ev now ex =
      (st.removePendingFlow ev.state,
       [CoordinatorAction.removeFlow ev.state,
        CoordinatorAction.notify
          { userId := flow.telegramUserId, chatId := flow.chatId
            service := flow.service, success := false
            error := some flowExpiredMsg }]) := by
    unfold TokenManager.handleCallback
    rw [hf]
    simp [hexp]
  refine ⟨h1, ?_⟩
  rw [h1]
  simp [SessionStore.removePendingFlow, SessionStore.getPendingFlow]

theorem handleCallback_expired_flow_witness :
    TokenManager.handleCallback storeWithFlowA
        { code := "c1", state := "s1" } 600000 ExchangeResult.authorized =
      (storeWithFlowA.removePendingFlow "s1",
       [CoordinatorAction.removeFlow "s1",
        CoordinatorAction.notify
          { userId := 7, chatId := 70, service := SwiggyService.food
            success := false, error := some flowExpiredMsg }]) :=
  (handleCallback_expired_flow storeWithFlowA { code := "c1", state := "s1" }
    600000 ExchangeResult.authorized flowA rfl (by decide)).1

/-- C1: a callback matching a registered, non-expired pending flow first
consumes the record, then performs the code-for-token exchange, and only
then delivers exactly one notification; that notification is a success
exactly when the exchange returned AUTHORIZED, and any other exchange
outcome yields one failure notification with the retry message. -/
theorem handleCallback_fresh_flow_exchange
    (st : SessionStore) (ev : AuthCallbackEvent) (now : Nat) (ex : ExchangeResult)
    (flow : PendingOAuthFlow)
    (hf : st.getPendingFlow ev.state = some flow)
    (hexp : ¬ now > flow.expiresAt) :
    TokenManager.handleCallback st ev now ex =
      (st.removePendingFlow ev.state,
       [CoordinatorAction.removeFlow ev.state,
        CoordinatorAction.exchangeCode flow.telegramUserId flow.service ev.code,
        CoordinatorAction.notify (exchangeNotification flow ex)]) ∧
    ((exchangeNotification flow ex).success = true ↔ ex = ExchangeResult.authorized) ∧
    (ex ≠ ExchangeResult.authorized →
      (exchangeNotification flow ex).error = some exchangeFailedMsg) ∧
    (TokenManager.handleCallback st ev now ex).1.getPendingFlow ev.state = none := by
  have h1 : TokenManager.handleCallback st ev now ex =
      (st.removePendingFlow ev.state,
       [CoordinatorAction.removeFlow ev.state,
        CoordinatorAction.exchangeCode flow.telegramUserId flow.service ev.code,
        CoordinatorAction.notify (exchangeNotification flow ex)]) := by
    unfold TokenManager.handleCallback
    rw [hf]
    simp [hexp]
  refine ⟨h1, ?_, ?_, ?_⟩
  · cases ex <;> simp [exchangeNotification]
  · intro hne
    cases ex <;> simp [exchangeNotification] <;> exact absurd rfl hne
  · rw [h1]
    simp [SessionStore.removePendingFlow, SessionStore.getPendingFlow]

theorem handleCallback_fresh_flow_exchange_witness :
    TokenManager.handleCallback storeWithFlowA
        { code := "c1", state := "s1" } 50 ExchangeResult.authorized =
      (storeWithFlowA.removePendingFlow "s1",
       [CoordinatorAction.removeFlow "s1",
        CoordinatorAction.exchangeCode 7 SwiggyService.food "c1",
        CoordinatorAction.notify
          { userId := 7, chatId := 70, service := SwiggyService.food
            success := true, error := none }]) := by
  have h := handleCallback_fresh_flow_exchange storeWithFlowA
    { code := "c1", state := "s1" } 50 ExchangeResult.authorized flowA rfl (by decide)
  rw [h.1]
  rfl

/-! ## Claims about the SessionStore -/

/-- C6 counterexample: with no session for the user, saveTokens is a
silent no-op, so isAuthenticated is still false immediately afterwards;
the round trip claimed to always hold fails at user 1 on the empty
store. -/
theorem saveTokens_isAuthenticated_cex :
    ¬ ((SessionStore.empty.saveTokens 1 SwiggyService.food tokA 0).isAuthenticated
        1 SwiggyService.food = true) := by
  decide

/-- C6 amended: for a user whose session exists, saveTokens followed
immediately by isAuthenticated is true; clearTokens followed by
isAuthenticated is false for every store, user and service. -/
theorem saveTokens_isAuthenticated_roundtrip
    (st : SessionStore) (u : Nat) (sv : SwiggyService) (T : OAuthTokens) (now : Nat)
    (h : (st.sessions u).isSome = true) :
    (st.saveTokens u sv T now).isAuthenticated u sv = true ∧
    ∀ (st2 : SessionStore) (u2 : Nat) (sv2 : SwiggyService),
      (st2.clearTokens u2 sv2).isAuthenticated u2 sv2 = false := by
  constructor
  · obtain ⟨s, hs⟩ := Option.isSome_iff_exists.mp h
    simp [SessionStore.saveTokens, SessionStore.isAuthenticated, hs]
  · intro st2 u2 sv2
    unfold SessionStore.clearTokens
    cases hs2 : st2.sessions u2 with
    | none => simp [SessionStore.isAuthenticated, hs2]
    | some s =>
        cases ho : s.oauthState sv2 with
        | none => simp [SessionStore.isAuthenticated, hs2, ho]
        | some cr => simp [SessionStore.isAuthenticated, ho]

theorem saveTokens_isAuthenticated_roundtrip_witness :
    (storeWithSession1.saveTokens 1 SwiggyService.food tokA 5).isAuthenticated
      1 SwiggyService.food = true :=
  (saveTokens_isAuthenticated_roundtrip storeWithSession1 1 SwiggyService.food
    tokA 5 (by decide)).1

/-- C10: for a user with no session in the store, the write operations
saveTokens, saveCodeVerifier and setPendingAuthUrl are silent no-ops
that return the store unchanged, and isAuthenticated stays false after
saveTokens. -/
theorem store_writes_noop_without_session
    (st : SessionStore) (u : Nat) (sv : SwiggyService) (T : OAuthTokens)
    (v url : String) (now : Nat)
    (h : st.sessions u = none) :
    st.saveTokens u sv T now = st ∧
    st.saveCodeVerifier u sv v = st ∧
    st.setPendingAuthUrl u sv url = st ∧
    (st.saveTokens u sv T now).isAuthenticated u sv = false := by
  refine ⟨?_, ?_, ?_, ?_⟩
  · simp [SessionStore.saveTokens, h]
  · simp [SessionStore.saveCodeVerifier, h]
  · simp [SessionStore.setPendingAuthUrl, h]
  · simp [SessionStore.saveTokens, SessionStore.isAuthenticated, h]

theorem store_writes_noop_without_session_witness :
    SessionStore.empty.saveTokens 2 SwiggyService.dineout tokA 0 = SessionStore.empty ∧
    SessionStore.empty.saveCodeVerifier 2 SwiggyService.dineout "ver" = SessionStore.empty ∧
    SessionStore.empty.setPendingAuthUrl 2 SwiggyService.dineout "http://u" = SessionStore.empty ∧
    (SessionStore.empty.saveTokens 2 SwiggyService.dineout tokA 0).isAuthenticated
      2 SwiggyService.dineout = false :=
  store_writes_noop_without_session SessionStore.empty 2 SwiggyService.dineout
    tokA "ver" "http://u" 0 rfl

/-! ## Claim about the provider state supplied by initiateAuth -/

/-- C2: initiateAuth constructs its SwiggyOAuthProvider with no
oauthState (five constructor arguments, signature without a state
parameter), so the provider correlation state is always the freshly
generated token, never the externally supplied pending-flow state. -/
theorem initiateAuth_provider_state_fresh
    (u : Nat) (sv : SwiggyService) (port : Nat) (host : String) (freshToken : String) :
    (McpClientManager.initiateAuthProvider u sv port host).oauthState = none ∧
    (McpClientManager.initiateAuthProvider u sv port host).state freshToken = freshToken :=
  ⟨rfl, rfl⟩

theorem initiateAuth_provider_state_fresh_witness :
    (McpClientManager.initiateAuthProvider 7 SwiggyService.food 3000 "localhost").oauthState
      = none ∧
    (McpClientManager.initiateAuthProvider 7 SwiggyService.food
      3000 "localhost").state "fresh-uuid-1" = "fresh-uuid-1" :=
  initiateAuth_provider_state_fresh 7 SwiggyService.food 3000 "localhost" "fresh-uuid-1"

/-! ## Claims about the client manager -/

/-- C5: with no cached entry and no tokens, getClient fails with
AuthenticationRequired without connecting, caching or touching the
store; with a cached entry, the client is returned unconditionally with
no connection attempt and no mutation. -/
theorem getClient_cached_or_auth_required
    (mgr : McpClientManager) (st : SessionStore) (u : Nat) (sv : SwiggyService)
    (connect : ConnectOutcome) (fc : McpClient) (ft : McpTransport) :
    (∀ c, mgr.clients (McpClientManager.getKey u sv) = some c →
      McpClientManager.getClient mgr st u sv connect fc ft = (Except.ok c, mgr, st, [])) ∧
    (mgr.clients (McpClientManager.getKey u sv) = none →
      st.isAuthenticated u sv = false →
        McpClientManager.getClient mgr st u sv connect fc ft =
          (Except.error (GetClientError.authRequired u sv), mgr, st, [])) := by
  constructor
  · intro c hc
    unfold McpClientManager.getClient
    simp [hc]
  · intro hc ha
    unfold McpClientManager.getClient
    simp [hc, ha]

theorem getClient_cached_or_auth_required_witness :
    McpClientManager.getClient mgrWithClient5 SessionStore.empty 1 SwiggyService.food
        (ConnectOutcome.ok SessionStore.empty) 9 9 =
      (Except.ok 5, mgrWithClient5, SessionStore.empty, []) ∧
    McpClientManager.getClient McpClientManager.emptyMgr SessionStore.empty 1 SwiggyService.food
        (ConnectOutcome.ok SessionStore.empty) 9 9 =
      (Except.error (GetClientError.authRequired 1 SwiggyService.food),
       McpClientManager.emptyMgr, SessionStore.empty, []) :=
  ⟨(getClient_cached_or_auth_required mgrWithClient5 SessionStore.empty 1 SwiggyService.food
      (ConnectOutcome.ok SessionStore.empty) 9 9).1 5 rfl,
   (getClient_cached_or_auth_required McpClientManager.emptyMgr SessionStore.empty 1
      SwiggyService.food (ConnectOutcome.ok SessionStore.empty) 9 9).2 rfl rfl⟩

/-- C7: whenever getClient succeeds, the returned client is the one left
in the cache under that key, so a second getClient with no intervening
invalidate or disconnect returns the same client object, attempts no
connection and changes nothing. -/
theorem getClient_second_call_same_client
    (mgr : McpClientManager) (st : SessionStore) (u : Nat) (sv : SwiggyService)
    (connect : ConnectOutcome) (fc : McpClient) (ft : McpTransport)
    (c : McpClient) (mgr2 : McpClientManager) (st2 : SessionStore) (acts : List MgrAction)
    (h : McpClientManager.getClient mgr st u sv connect fc ft =
      (Except.ok c, mgr2, st2, acts)) :
    ∀ (st3 : SessionStore) (connect2 : ConnectOutcome) (fc2 : McpClient) (ft2 : McpTransport),
      McpClientManager.getClient mgr2 st3 u sv connect2 fc2 ft2 =
        (Except.ok c, mgr2, st3, []) := by
  have hkey : mgr2.clients (McpClientManager.getKey u sv) = some c := by
    unfold McpClientManager.getClient at h
    cases hc : mgr.clients (McpClientManager.getKey u sv) with
    | some existing =>
        simp only [hc, Prod.mk.injEq, Except.ok.injEq] at h
        obtain ⟨h1, h2, _, _⟩ := h
        rw [← h2, hc, h1]
    | none =>
        simp only [hc] at h
        cases ha : st.isAuthenticated u sv with
        | false => simp [ha] at h
        | true =>
            cases connect with
            | ok stAfter =>
                simp only [ha, if_true, Prod.mk.injEq, Except.ok.injEq] at h
                obtain ⟨h1, h2, _⟩ := h
                rw [← h2]
                simp [h1]
            | fail err stAfter =>
                by_cases hp : (stAfter.getPendingAuthUrl u).isSome <;> simp [ha, hp] at h
  intro st3 connect2 fc2 ft2
  unfold McpClientManager.getClient
  simp [hkey]

theorem getClient_second_call_same_client_witness :
    McpClientManager.getClient mgrAfterConnect SessionStore.empty 1 SwiggyService.food
        (ConnectOutcome.ok SessionStore.empty) 77 78 =
      (Except.ok 9, mgrAfterConnect, SessionStore.empty, []) :=
  getClient_second_call_same_client McpClientManager.emptyMgr storeAuth1 1 SwiggyService.food
    (ConnectOutcome.ok storeAuth1) 9 91 9 mgrAfterConnect storeAuth1
    [MgrAction.connectAttempt 1 SwiggyService.food] rfl
    SessionStore.empty (ConnectOutcome.ok SessionStore.empty) 77 78

/-! ## Claim about the callback HTTP server -/

/-- C8: a GET to /callback carrying truthy code and state publishes
exactly one (code, state) event and serves the 200 confirmation page; a
GET to /callback missing either parameter publishes nothing and serves
the fragment-to-query redirect page; GET /health serves 200 OK; every
other path serves 404. handleRequest never takes the session store, so
no branch reads the pending-flow registry. -/
theorem callbackServer_request_behavior
    (path : String) (c s : String) (co so : Option String)
    (hc : c.isEmpty = false) (hs : s.isEmpty = false) :
    (OAuthCallbackServer.handleRequest "/callback" (some c) (some s) =
      ({ statusCode := 200, contentType := "text/html", body := successHtml },
       [{ code := c, state := s }])) ∧
    (co = none ∨ so = none →
      OAuthCallbackServer.handleRequest "/callback" co so =
        ({ statusCode := 200, contentType := "text/html", body := fragmentRedirectHtml },
         [])) ∧
    (OAuthCallbackServer.handleRequest "/health" co so =
      ({ statusCode := 200, contentType := "text/plain", body := "OK" }, [])) ∧
    (path ≠ "/health" → path ≠ "/callback" →
      OAuthCallbackServer.handleRequest path co so =
        ({ statusCode := 404, contentType := "text/plain", body := "Not found" }, [])) := by
  refine ⟨?_, ?_, ?_, ?_⟩
  · unfold OAuthCallbackServer.handleRequest OAuthCallbackServer.handleCallback
    rw [if_neg (by decide : ¬ ("/callback" : String) = "/health"), if_pos rfl]
    simp [paramTruthy, hc, hs]
  · intro h
    unfold OAuthCallbackServer.handleRequest OAuthCallbackServer.handleCallback
    rw [if_neg (by decide : ¬ ("/callback" : String) = "/health"), if_pos rfl]
    rcases h with h | h <;> subst h
    · simp [paramTruthy]
    · simp [paramTruthy]
  · unfold OAuthCallbackServer.handleRequest
    rw [if_pos rfl]
  · intro h1 h2
    unfold OAuthCallbackServer.handleRequest
    rw [if_neg h1, if_neg h2]

theorem callbackServer_request_behavior_witness :
    (OAuthCallbackServer.handleRequest "/callback" (some "authcode") (some "s1") =
      ({ statusCode := 200, contentType := "text/html", body := successHtml },
       [{ code := "authcode", state := "s1" }])) ∧
    (OAuthCallbackServer.handleRequest "/callback" none (some "s1") =
      ({ statusCode := 200, contentType := "text/html", body := fragmentRedirectHtml },
       [])) ∧
    (OAuthCallbackServer.handleRequest "/health" none (some "s1") =
      ({ statusCode := 200, contentType := "text/plain", body := "OK" }, [])) ∧
    (OAuthCallbackServer.handleRequest "/other" none (some "s1") =
      ({ statusCode := 404, contentType := "text/plain", body := "Not found" }, [])) := by
  have h := callbackServer_request_behavior "/other" "authcode" "s1" none (some "s1")
    (by decide) (by decide)
  exact ⟨h.1, h.2.1 (Or.inl rfl), h.2.2.1, h.2.2.2 (by decide) (by decide)⟩

/-! ## Claim about the tool invoker retry policy -/

/-- C9: invokeWithRetry performs at most one retry; it performs the
second attempt exactly when the first attempt threw a message classified
as transient (timeout, ECONNRESET, 503); a non-transient first failure
is propagated as a SwiggyMcpError with no retry; when a retry happens,
the final result is exactly the outcome of the second invoke, so a
failing retry is propagated too. -/
theorem invokeWithRetry_single_transient_retry
    (sv : SwiggyService) (tn : String) (first second : CallOutcome) :
    (ToolInvoker.invokeWithRetry sv tn first second).2 ≤ 2 ∧
    ((ToolInvoker.invokeWithRetry sv tn first second).2 = 2 ↔
      ∃ msg, first = CallOutcome.thrown msg ∧ isRetryableMessage msg = true) ∧
    (∀ msg, first = CallOutcome.thrown msg → isRetryableMessage msg = false →
      ToolInvoker.invokeWithRetry sv tn first second =
        (Except.error { message := msg, service := sv, toolName := tn
                        isRetryable := false }, 1)) ∧
    (∀ msg, first = CallOutcome.thrown msg → isRetryableMessage msg = true →
      (ToolInvoker.invokeWithRetry sv tn first second).1 =
        ToolInvoker.invoke sv tn second) := by
  cases first with
  | success content isErrorFlag =>
      refine ⟨?_, ?_, ?_, ?_⟩
      · simp [ToolInvoker.invokeWithRetry, ToolInvoker.invoke]
      · simp [ToolInvoker.invokeWithRetry, ToolInvoker.invoke]
      · intro msg hmsg hf
        exact absurd hmsg (by simp)
      · intro msg hmsg hm
        exact absurd hmsg (by simp)
  | thrown msg0 =>
      cases hr : isRetryableMessage msg0 with
      | false =>
          refine ⟨?_, ?_, ?_, ?_⟩
          · simp [ToolInvoker.invokeWithRetry, ToolInvoker.invoke, hr]
          · constructor
            · intro h2
              simp [ToolInvoker.invokeWithRetry, ToolInvoker.invoke, hr] at h2
            · rintro ⟨msg, he, hm⟩
              injection he with he2
              subst he2
              rw [hr] at hm
              cases hm
          · intro msg hmsg hf
            injection hmsg with he2
            subst he2
            simp [ToolInvoker.invokeWithRetry, ToolInvoker.invoke, hr]
          · intro msg hmsg hm
            injection hmsg with he2
            subst he2
            rw [hr] at hm
            cases hm
      | true =>
          refine ⟨?_, ?_, ?_, ?_⟩
          · simp [ToolInvoker.invokeWithRetry, ToolInvoker.invoke, hr]
          · constructor
            · intro h2
              exact ⟨msg0, rfl, hr⟩
            · intro h2
              simp [ToolInvoker.invokeWithRetry, ToolInvoker.invoke, hr]
          · intro msg hmsg hf
            injection hmsg with he2
            subst he2
            rw [hr] at hf
            cases hf
          · intro msg hmsg hm
            simp [ToolInvoker.invokeWithRetry, ToolInvoker.invoke, hr]

theorem invokeWithRetry_single_transient_retry_witness :
    (ToolInvoker.invokeWithRetry SwiggyService.food "searchFood"
        (CallOutcome.thrown "request timeout") (CallOutcome.thrown "boom")).2 = 2 ∧
    (ToolInvoker.invokeWithRetry SwiggyService.food "searchFood"
        (CallOutcome.thrown "request timeout") (CallOutcome.thrown "boom")).1 =
      ToolInvoker.invoke SwiggyService.food "searchFood" (CallOutcome.thrown "boom") := by
  have h := invokeWithRetry_single_transient_retry SwiggyService.food "searchFood"
    (CallOutcome.thrown "request timeout") (CallOutcome.thrown "boom")
  exact ⟨h.2.1.mpr ⟨"request timeout", rfl, by decide⟩,
         h.2.2.2 "request timeout" rfl (by decide)⟩
